import Mathlib

/-!
Shallow embedding of `src/app/main.py` (fastapi-chatbot-basics): a rule-based
chatbot with an in-memory session store.

Modelling conventions:
* Python `str.strip()` is modelled by `pyStrip` (remove leading and trailing
  whitespace; the inputs relevant here are ASCII).
* Python `str.lower()` is modelled by `pyLower` (they agree on ASCII, which
  is all the rule machinery inspects).
* Python substring test `needle in haystack` is modelled by `strIn`.
* The module-level dict `sessions : Dict[str, List[ChatMessage]]` is modelled
  as a function `String → Option History`; `dict.get`, `in`, `del` and
  assignment become the corresponding pointwise operations.
* The source's `with sessions_lock:` block serialises each handler; in this
  sequential embedding each handler is a single atomic state transition.
* Python truthiness of `Optional[str]` (used by `req.session_id or str(uuid4())`)
  is modelled by `pyOr`: `None` and the empty string are falsy.
* The unique id produced by `str(uuid4())` is passed in as an explicit
  `freshId` argument.
* The `raise HTTPException(...)` line in `get_session` refers to a name that
  the module never imports or defines, so evaluating it raises `NameError` in
  Python; `get_session` models this by consulting `moduleNames`, the set of
  names bound at module level in `src/app/main.py`.
-/

namespace ChatbotBasics

/-- Role of a chat message, from `Literal["user", "bot"]` in `ChatMessage`. -/
inductive Role where
  | user : Role
  | bot : Role
deriving DecidableEq, Repr

/-- One message in the chat history (`class ChatMessage` in `main.py`). -/
structure ChatMessage where
  role : Role
  content : String
deriving DecidableEq, Repr

/-- A session's ordered history: `List[ChatMessage]`. -/
abbrev History := List ChatMessage

/-- The session store: `sessions: Dict[str, List[ChatMessage]]`, modelled as a
map from session id to its history (`none` = key absent). -/
abbrev Store := String → Option History

/-- The initial, empty `sessions` dict. -/
def emptyStore : Store := fun _ => none

/-- Request body of POST /chat (`class ChatRequest`). -/
structure ChatRequest where
  message : String
  session_id : Option String
deriving DecidableEq, Repr

/-- Response body of POST /chat (`class ChatResponse`). -/
structure ChatResponse where
  session_id : String
  reply : String
  history : History
deriving DecidableEq, Repr

/-- Python `str.strip()`: remove leading and trailing whitespace. Defined
structurally on the character list so concrete instances reduce in the
kernel. -/
def pyStrip (s : String) : String :=
  ⟨((s.data.dropWhile Char.isWhitespace).reverse.dropWhile Char.isWhitespace).reverse⟩

/-- Python `str.lower()` (ASCII case folding, which is all the rules use). -/
def pyLower (s : String) : String := ⟨s.data.map Char.toLower⟩

/-- Substring occurrence on character lists: `hasSubstr pat s` is true iff
`pat` occurs contiguously in `s` (Python `pat in s` for strings). -/
def hasSubstr (pat : List Char) : List Char → Bool
  | [] => pat.isEmpty
  | c :: cs => pat.isPrefixOf (c :: cs) || hasSubstr pat cs

/-- Python `pat in s` for strings: substring containment. -/
def strIn (pat s : String) : Bool := hasSubstr pat.data s.data

/-- The fixed greeting set `greetings = {"hi", "hello", "hey", "good morning",
"good evening"}` from `rule_based_reply`. -/
def greetings : List String := ["hi", "hello", "hey", "good morning", "good evening"]

/-- Continuation of `rule_based_reply` after the day-context rule: rules 4–6
of the cascade (`hours`/`open` prompt, farewell, default). `t` is the
trimmed lowercased text. Split out because Python uses early returns. -/
def rule_reply_tail (t : String) : String :=
  if strIn "hours" t || strIn "open" t then
    "I can help with hours. What day are you asking about?"
  else if strIn "bye" t || strIn "goodbye" t then
    "Bye! Have a great day."
  else
    "Thanks! Iâ€™m a simple stateful bot now. Try \x27hi\x27 or ask about \x27hours\x27."

/-- `rule_based_reply(text, history)` from `main.py`: decide the bot reply by
the six-rule cascade. The non-ASCII characters reproduce the source file's
literal bytes (the file stores mojibake such as `ðŸ˜Š`). -/
def rule_based_reply (text : String) (history : History) : String :=
  let t := pyLower (pyStrip text)
  if t = "" then
    "Please type something and try again."
  else if greetings.contains t then
    let user_greeting_count :=
      history.countP fun msg =>
        msg.role == Role.user && greetings.contains (pyLower (pyStrip msg.content))
    if 2 ≤ user_greeting_count then
      "Hello again! ðŸ˜Š What would you like to do next?"
    else
      "Hello! ðŸ˜Š How can I help you today?"
  else
    match (if history.isEmpty then none
           else history.reverse.find? fun m => m.role == Role.bot) with
    | some last_bot =>
        if strIn "what day are you asking about" (pyLower last_bot.content) then
          "Got it â€” you\x27re asking about " ++ pyStrip text
            ++ ". (Weâ€™ll add real hours later.)"
        else
          rule_reply_tail t
    | none => rule_reply_tail t

/-- Python truthiness fallback `a or b` for `a : Optional[str]`: `None` and
the empty string are falsy, any other string is returned as is. -/
def pyOr (a : Option String) (b : String) : String :=
  match a with
  | none => b
  | some s => if s = "" then b else s

/-- The `chat` endpoint handler (POST /chat) from `main.py`. `freshId` stands
for the `str(uuid4())` generated inside the handler. Returns the response
together with the updated `sessions` store. -/
def chat (store : Store) (freshId : String) (req : ChatRequest) : ChatResponse × Store :=
  let message := pyStrip req.message
  let session_id := pyOr req.session_id freshId
  let history := (store session_id).getD []
  let history1 := history ++ [⟨Role.user, message⟩]
  let reply := rule_based_reply message history1
  let history2 := history1 ++ [⟨Role.bot, reply⟩]
  let store1 : Store := fun k => if k = session_id then some history2 else store k
  (⟨session_id, reply, history2⟩, store1)

/-- Names bound at module level in `src/app/main.py`: the five import lines
plus the module's own definitions. `HTTPException` is NOT among them. -/
def moduleNames : List String :=
  ["FastAPI", "BaseModel", "Field", "uuid4", "Lock",
   "Dict", "List", "Literal", "Optional",
   "app", "ChatRequest", "ChatMessage", "ChatResponse",
   "sessions", "sessions_lock", "rule_based_reply",
   "health", "chat", "get_session", "delete_session"]

/-- Outcome of the `get_session` handler: a history, an `HTTPException`
carrying a status code and detail, or a Python `NameError` on an unbound
name. -/
inductive GetSessionResult where
  | ok : History → GetSessionResult
  | httpError : Nat → String → GetSessionResult
  | nameError : String → GetSessionResult
deriving DecidableEq, Repr

/-- The `get_session` endpoint handler (GET /sessions/\x7bsession_id\x7d).
When the session is absent the source executes
`raise HTTPException(status_code=404, detail="Session not found")`; that line
first evaluates the name `HTTPException`, which raises `NameError` unless the
name is bound at module level. -/
def get_session (store : Store) (session_id : String) : GetSessionResult :=
  match store session_id with
  | some history => .ok history
  | none =>
      if moduleNames.contains "HTTPException" then
        .httpError 404 "Session not found"
      else
        .nameError "HTTPException"

/-- Response body of DELETE /sessions/\x7bsession_id\x7d. -/
structure DeleteResponse where
  deleted : Bool
  session_id : String
deriving DecidableEq, Repr

/-- The `delete_session` endpoint handler from `main.py`: remove the session
if present, report whether it existed. Returns the response and updated
store. -/
def delete_session (store : Store) (session_id : String) : DeleteResponse × Store :=
  let existed := (store session_id).isSome
  let store1 : Store :=
    if existed then fun k => if k = session_id then none else store k
    else store
  (⟨existed, session_id⟩, store1)

/-- Iterated chat requests: run `chat` once per message in `msgs`, each with
the same explicit `session_id = some sid`, threading the store. -/
def chatN (fresh sid : String) (msgs : List String) (store : Store) : Store :=
  msgs.foldl (fun st m => (chat st fresh ⟨m, some sid⟩).2) store

/-- Decidable phrasing of "even length, alternating user/bot starting with a
user message": the history is a sequence of (user, bot) pairs. -/
def isUserBotPairs : History → Bool
  | [] => true
  | u :: b :: rest => u.role == Role.user && b.role == Role.bot && isUserBotPairs rest
  | _ :: [] => false

/-- Appending one (user, bot) pair preserves `isUserBotPairs`. -/
theorem isUserBotPairs_append (a b : String) :
    ∀ h : History, isUserBotPairs h = true →
      isUserBotPairs (h ++ [⟨Role.user, a⟩, ⟨Role.bot, b⟩]) = true
  | [], _ => by simp [isUserBotPairs]
  | [_], hx => by simp [isUserBotPairs] at hx
  | x :: y :: rest, hxy => by
      simp only [isUserBotPairs, Bool.and_eq_true, beq_iff_eq] at hxy
      simp only [List.cons_append, isUserBotPairs, Bool.and_eq_true, beq_iff_eq]
      exact ⟨⟨hxy.1.1, hxy.1.2⟩, isUserBotPairs_append a b rest hxy.2⟩

/-- One `chat` call with an explicit non-empty session id updates exactly that
session, appending the trimmed user message and then the computed bot reply. -/
theorem chat_update (store : Store) (fresh sid m : String) (hsid : sid ≠ "") :
    (chat store fresh ⟨m, some sid⟩).2 sid =
      some ((store sid).getD [] ++
        [⟨Role.user, pyStrip m⟩,
         ⟨Role.bot, rule_based_reply (pyStrip m)
            ((store sid).getD [] ++ [⟨Role.user, pyStrip m⟩])⟩]) := by
  simp [chat, pyOr, hsid]

/-- Invariant for iterated chats on one session: if the session currently
holds an alternating history, it still does after any number of further chat
calls, and each call grows it by exactly two entries. -/
theorem chatN_invariant (fresh sid : String) (hsid : sid ≠ "") :
    ∀ (msgs : List String) (store : Store) (h : History),
      store sid = some h → isUserBotPairs h = true →
      ∃ h2, chatN fresh sid msgs store sid = some h2 ∧
        isUserBotPairs h2 = true ∧ h2.length = h.length + 2 * msgs.length
  | [], store, h, hs, hp => by
      refine ⟨h, ?_, hp, ?_⟩
      · simpa [chatN] using hs
      · simp
  | m :: rest, store, h, hs, hp => by
      have hstep := chat_update store fresh sid m hsid
      rw [hs] at hstep
      simp only [Option.getD_some] at hstep
      have hp2 : isUserBotPairs (h ++
          [⟨Role.user, pyStrip m⟩,
           ⟨Role.bot, rule_based_reply (pyStrip m) (h ++ [⟨Role.user, pyStrip m⟩])⟩]) = true :=
        isUserBotPairs_append _ _ h hp
      obtain ⟨h2, hh2, hp3, hlen⟩ :=
        chatN_invariant fresh sid hsid rest (chat store fresh ⟨m, some sid⟩).2 _ hstep hp2
      refine ⟨h2, ?_, hp3, ?_⟩
      · simpa [chatN] using hh2
      · simp only [List.length_append, List.length_cons, List.length_nil] at hlen
        simp only [List.length_cons]
        omega

/-- C1: starting from a store where session `sid` is absent, after `N ≥ 1`
chat requests with non-empty message text on that session, fetching the
session's history via `get_session` succeeds and returns exactly `2N` entries
that alternate user/bot starting with a user message. -/
theorem C1_chat_history_alternation (store : Store) (fresh sid : String)
    (msgs : List String) (hsid : sid ≠ "") (hstart : store sid = none)
    (hlen : 1 ≤ msgs.length) (hmsgs : ∀ m ∈ msgs, m ≠ "") :
    ∃ h, get_session (chatN fresh sid msgs store) sid = GetSessionResult.ok h ∧
      h.length = 2 * msgs.length ∧ isUserBotPairs h = true := by
  match msgs, hlen with
  | m :: rest, _ =>
    have hstep := chat_update store fresh sid m hsid
    rw [hstart] at hstep
    simp only [Option.getD_none] at hstep
    have hp2 : isUserBotPairs ([] ++
        [⟨Role.user, pyStrip m⟩,
         ⟨Role.bot, rule_based_reply (pyStrip m) ([] ++ [⟨Role.user, pyStrip m⟩])⟩]) = true := by
      simp [isUserBotPairs]
    obtain ⟨h2, hh2, hp3, hlen2⟩ :=
      chatN_invariant fresh sid hsid rest (chat store fresh ⟨m, some sid⟩).2 _
        (by simpa using hstep) (by simpa using hp2)
    refine ⟨h2, ?_, ?_, hp3⟩
    · have : chatN fresh sid (m :: rest) store sid = some h2 := by
        simpa [chatN] using hh2
      simp [get_session, this]
    · simp only [List.length_cons, List.length_nil] at hlen2
      simp only [List.length_cons]
      omega

/-- C1 witness: one chat request with message "hi" on fresh session "s". -/
theorem C1_chat_history_alternation_witness :
    ∃ h, get_session (chatN "f" "s" ["hi"] emptyStore) "s" = GetSessionResult.ok h ∧
      h.length = 2 * (["hi"] : List String).length ∧ isUserBotPairs h = true :=
  C1_chat_history_alternation emptyStore "f" "s" ["hi"] (by decide) rfl
    (by decide) (by decide)

/-- C2: on an unknown session id, `get_session` does not produce the intended
404 HTTPException outcome: because `HTTPException` is not among the module's
bound names, the handler raises `NameError` instead. This contradicts the
spec's NotFound contract (the code bug is the missing
`from fastapi import HTTPException`). -/
theorem C2_get_session_unknown_raises_nameError (store : Store) (sid : String)
    (habsent : store sid = none) :
    get_session store sid = GetSessionResult.nameError "HTTPException" ∧
    ∀ status detail, get_session store sid ≠ GetSessionResult.httpError status detail := by
  have hnotmem : "HTTPException" ∉ moduleNames := by decide
  constructor
  · simp [get_session, habsent, hnotmem]
  · intro status detail
    simp [get_session, habsent, hnotmem]

/-- C2 witness: the spec's own failing input, `get_session("does-not-exist")`
on an empty store. -/
theorem C2_get_session_unknown_witness :
    get_session emptyStore "does-not-exist" = GetSessionResult.nameError "HTTPException" ∧
    ∀ status detail,
      get_session emptyStore "does-not-exist" ≠ GetSessionResult.httpError status detail :=
  C2_get_session_unknown_raises_nameError emptyStore "does-not-exist" rfl

/-- C3 counterexample: on the second greeting the history (which includes the
just-appended current "hi") contains only ONE previous user greeting, yet the
reply is already the "hello again" variant — refuting "two or more times
previously". -/
theorem C3_greeting_count_counterexample :
    rule_based_reply "hi"
      [⟨Role.user, "hi"⟩,
       ⟨Role.bot, "Hello! ðŸ˜Š How can I help you today?"⟩,
       ⟨Role.user, "hi"⟩] =
      "Hello again! ðŸ˜Š What would you like to do next?" ∧
    (([⟨Role.user, "hi"⟩,
       ⟨Role.bot, "Hello! ðŸ˜Š How can I help you today?"⟩,
       ⟨Role.user, "hi"⟩] : History).dropLast.countP fun msg =>
        msg.role == Role.user && greetings.contains (pyLower (pyStrip msg.content))) = 1 := by
  constructor
  · decide
  · decide

/-- C3 amended: for greeting input, the reply is the "hello again" variant iff
the history passed to the policy (which, as called by `chat`, already includes
the current user greeting) contains two or more user greetings in total —
i.e. iff the user greeted one or more times before the current turn. -/
theorem C3_greeting_escalation (text : String) (history : History)
    (hg : greetings.contains (pyLower (pyStrip text)) = true) :
    (rule_based_reply text history =
        "Hello again! ðŸ˜Š What would you like to do next?" ↔
      2 ≤ history.countP fun msg =>
        msg.role == Role.user && greetings.contains (pyLower (pyStrip msg.content))) := by
  have ht : ¬ (pyLower (pyStrip text) = "") := by
    intro h0
    rw [h0] at hg
    exact absurd hg (by decide)
  unfold rule_based_reply
  simp only [ht, if_false, hg, if_true]
  by_cases hc : 2 ≤ history.countP fun msg =>
      msg.role == Role.user && greetings.contains (pyLower (pyStrip msg.content))
  · simp [hc]
  · simp only [hc, if_false, iff_false]
    intro hbad
    exact absurd hbad (by decide)

/-- C3 witness: first-ever greeting, history holding only the current "hi". -/
theorem C3_greeting_escalation_witness :
    greetings.contains (pyLower (pyStrip "hi")) = true ∧
    (rule_based_reply "hi" [⟨Role.user, "hi"⟩] =
        "Hello again! ðŸ˜Š What would you like to do next?" ↔
      2 ≤ ([⟨Role.user, "hi"⟩] : History).countP fun msg =>
        msg.role == Role.user && greetings.contains (pyLower (pyStrip msg.content))) :=
  ⟨by decide, C3_greeting_escalation "hi" [⟨Role.user, "hi"⟩] (by decide)⟩

/-- C4: for non-empty, non-greeting input, when the most recent bot message
(scanning backward) contains "what day are you asking about"
case-insensitively, the reply echoes the user's text case-preserved (only
stripped), taking priority over the hours/farewell/default rules. -/
theorem C4_day_context_acknowledgement (text : String) (history : History)
    (m : ChatMessage)
    (ht : pyLower (pyStrip text) ≠ "")
    (hg : greetings.contains (pyLower (pyStrip text)) = false)
    (hfind : (history.reverse.find? fun x => x.role == Role.bot) = some m)
    (hday : strIn "what day are you asking about" (pyLower m.content) = true) :
    rule_based_reply text history =
      "Got it â€” you\x27re asking about " ++ pyStrip text
        ++ ". (Weâ€™ll add real hours later.)" := by
  have hne : history.isEmpty = false := by
    cases history with
    | nil => simp at hfind
    | cons x xs => rfl
  unfold rule_based_reply
  simp only [ht, if_false, hg, Bool.false_eq_true, hne, hfind, hday, if_true]

/-- C4 witness: the spec's own scenario — "What are your hours?" then
"monday"; the second reply acknowledges "monday" verbatim. -/
theorem C4_day_context_acknowledgement_witness :
    rule_based_reply "monday"
      [⟨Role.user, "What are your hours?"⟩,
       ⟨Role.bot, "I can help with hours. What day are you asking about?"⟩,
       ⟨Role.user, "monday"⟩] =
      "Got it â€” you\x27re asking about " ++ pyStrip "monday"
        ++ ". (Weâ€™ll add real hours later.)" :=
  C4_day_context_acknowledgement "monday"
    [⟨Role.user, "What are your hours?"⟩,
     ⟨Role.bot, "I can help with hours. What day are you asking about?"⟩,
     ⟨Role.user, "monday"⟩]
    ⟨Role.bot, "I can help with hours. What day are you asking about?"⟩
    (by decide) (by decide) (by decide) (by decide)

/-- C5: `delete_session` reports `deleted` exactly when the session existed,
removes that session, and a second delete on the same id reports
`deleted = false` and leaves the store exactly as after the first delete. -/
theorem C5_delete_session_idempotent (store : Store) (sid : String) :
    (delete_session store sid).1.deleted = (store sid).isSome ∧
    (delete_session store sid).2 sid = none ∧
    (delete_session (delete_session store sid).2 sid).1.deleted = false ∧
    (delete_session (delete_session store sid).2 sid).2 = (delete_session store sid).2 := by
  cases hs : store sid with
  | none =>
      refine ⟨by simp [delete_session, hs], ?_, ?_, ?_⟩ <;>
        simp [delete_session, hs]
  | some h =>
      have h2 : (delete_session store sid).2 sid = none := by
        simp [delete_session, hs]
      refine ⟨by simp [delete_session, hs], h2, ?_, ?_⟩ <;>
        simp [delete_session, hs, h2]

/-- C7 counterexample: a supplied but unknown session id that is the empty
string is NOT used as the new session's anchor — `req.session_id or
str(uuid4())` treats "" as falsy, so the request runs under the freshly
generated id and no session keyed by "" is created. -/
theorem C7_empty_session_id_counterexample :
    (chat emptyStore "fresh-id" ⟨"hi", some ""⟩).1.session_id = "fresh-id" ∧
    (chat emptyStore "fresh-id" ⟨"hi", some ""⟩).1.session_id ≠ "" ∧
    (chat emptyStore "fresh-id" ⟨"hi", some ""⟩).2 "" = none := by
  refine ⟨rfl, by decide, rfl⟩

/-- C7 amended: a supplied NON-EMPTY session id is used as is — existing
sessions keep their history, unknown ones start from an empty history
anchored to that id — while a missing or empty-string session id makes the
request run under the freshly generated id, starting from an empty history
when that id is unused. -/
theorem C7_session_resolution (store : Store) (fresh : String) (req : ChatRequest) :
    (∀ sid, req.session_id = some sid → sid ≠ "" →
      (chat store fresh req).1.session_id = sid ∧
      (chat store fresh req).1.history =
        (store sid).getD [] ++
          [⟨Role.user, pyStrip req.message⟩,
           ⟨Role.bot, rule_based_reply (pyStrip req.message)
              ((store sid).getD [] ++ [⟨Role.user, pyStrip req.message⟩])⟩]) ∧
    ((req.session_id = none ∨ req.session_id = some "") →
      (chat store fresh req).1.session_id = fresh ∧
      (store fresh = none →
        (chat store fresh req).1.history =
          [⟨Role.user, pyStrip req.message⟩,
           ⟨Role.bot, rule_based_reply (pyStrip req.message)
              [⟨Role.user, pyStrip req.message⟩]⟩])) := by
  constructor
  · intro sid hsid hne
    constructor
    · simp [chat, pyOr, hsid, hne]
    · simp [chat, pyOr, hsid, hne]
  · intro hcase
    have hres : pyOr req.session_id fresh = fresh := by
      rcases hcase with h | h <;> simp [pyOr, h]
    constructor
    · simp [chat, hres]
    · intro habsent
      simp [chat, hres, habsent]

/-- C7 witness: a non-empty unknown id "s" anchors the new session to "s". -/
theorem C7_session_resolution_witness :
    (chat emptyStore "f" ⟨"hello", some "s"⟩).1.session_id = "s" ∧
    (chat emptyStore "f" ⟨"hello", some "s"⟩).1.history =
      (emptyStore "s").getD [] ++
        [⟨Role.user, pyStrip "hello"⟩,
         ⟨Role.bot, rule_based_reply (pyStrip "hello")
            ((emptyStore "s").getD [] ++ [⟨Role.user, pyStrip "hello"⟩])⟩] :=
  (C7_session_resolution emptyStore "f" ⟨"hello", some "s"⟩).1 "s" rfl (by decide)

/-- The six rule branches of `rule_based_reply`, in evaluation order. -/
inductive RuleBranch where
  | emptyPrompt : RuleBranch
  | greetingRule : RuleBranch
  | dayAnswer : RuleBranch
  | hoursPrompt : RuleBranch
  | farewell : RuleBranch
  | fallback : RuleBranch
deriving DecidableEq, Repr

/-- Which of the six branches fires, mirroring the cascade of
`rule_based_reply` (first match wins). -/
def ruleBranch (text : String) (history : History) : RuleBranch :=
  let t := pyLower (pyStrip text)
  if t = "" then .emptyPrompt
  else if greetings.contains t then .greetingRule
  else
    match (if history.isEmpty then none
           else history.reverse.find? fun m => m.role == Role.bot) with
    | some last_bot =>
        if strIn "what day are you asking about" (pyLower last_bot.content) then
          .dayAnswer
        else if strIn "hours" t || strIn "open" t then .hoursPrompt
        else if strIn "bye" t || strIn "goodbye" t then .farewell
        else .fallback
    | none =>
        if strIn "hours" t || strIn "open" t then .hoursPrompt
        else if strIn "bye" t || strIn "goodbye" t then .farewell
        else .fallback

/-- The reply produced by each branch, per the spec's rule table. -/
def branchReply : RuleBranch → String → History → String
  | .emptyPrompt, _, _ => "Please type something and try again."
  | .greetingRule, _, history =>
      if 2 ≤ history.countP (fun msg =>
          msg.role == Role.user && greetings.contains (pyLower (pyStrip msg.content))) then
        "Hello again! ðŸ˜Š What would you like to do next?"
      else
        "Hello! ðŸ˜Š How can I help you today?"
  | .dayAnswer, text, _ =>
      "Got it â€” you\x27re asking about " ++ pyStrip text
        ++ ". (Weâ€™ll add real hours later.)"
  | .hoursPrompt, _, _ => "I can help with hours. What day are you asking about?"
  | .farewell, _, _ => "Bye! Have a great day."
  | .fallback, _, _ =>
      "Thanks! Iâ€™m a simple stateful bot now. Try \x27hi\x27 or ask about \x27hours\x27."

/-- C8: the reply policy is total — every input falls into exactly the one
branch that `ruleBranch` selects (first match in the specified order), the
reply is that branch's reply, and it is always a non-empty string. -/
theorem C8_reply_total_and_branches (text : String) (history : History) :
    rule_based_reply text history = branchReply (ruleBranch text history) text history ∧
    0 < (rule_based_reply text history).length := by
  have hb : rule_based_reply text history =
      branchReply (ruleBranch text history) text history := by
    unfold rule_based_reply ruleBranch
    simp only []
    cases hfind : (if history.isEmpty then none
        else history.reverse.find? fun m => m.role == Role.bot) with
    | none =>
        split_ifs <;> simp_all [branchReply, rule_reply_tail] <;>
          split <;> first | rfl | omega
    | some last_bot =>
        by_cases hday :
            strIn "what day are you asking about" (pyLower last_bot.content) = true <;>
          split_ifs <;> simp_all [branchReply, rule_reply_tail] <;>
            split <;> first | rfl | omega
  refine ⟨hb, ?_⟩
  rw [hb]
  cases hbr : ruleBranch text history <;>
    simp only [branchReply] <;>
    first
      | decide
      | (split <;> decide)
      | (simp only [String.length_append]
         have h1 : 0 < ("Got it â€” you\x27re asking about " : String).length := by decide
         omega)

/-- C9: a chat request touches only its own session — every other key of the
store is unchanged — and `delete_session sid` leaves every key other than
`sid` unchanged. -/
theorem C9_session_isolation (store : Store) (fresh : String) (req : ChatRequest)
    (sid k : String) :
    (k ≠ (chat store fresh req).1.session_id →
      (chat store fresh req).2 k = store k) ∧
    (k ≠ sid → (delete_session store sid).2 k = store k) := by
  constructor
  · intro hk
    have hk2 : k ≠ pyOr req.session_id fresh := by
      simpa [chat] using hk
    simp [chat, hk2]
  · intro hk
    cases hs : store sid with
    | none => simp [delete_session, hs]
    | some h => simp [delete_session, hs, hk]

/-- C9 witness: a chat on session "b" and a delete of "b" both leave the
unrelated key "a" untouched. -/
theorem C9_session_isolation_witness :
    ((chat emptyStore "f" ⟨"hi", some "b"⟩).2 "a" = emptyStore "a") ∧
    ((delete_session emptyStore "b").2 "a" = emptyStore "a") :=
  ⟨(C9_session_isolation emptyStore "f" ⟨"hi", some "b"⟩ "b" "a").1 (by decide),
   (C9_session_isolation emptyStore "f" ⟨"hi", some "b"⟩ "b" "a").2 (by decide)⟩

/-- C10: the stored user message is the request text with surrounding
whitespace stripped (the bot entry following it holds the returned reply);
a whitespace-only message is stored with empty content and still yields the
user/bot pair; and the day-answer rule echoes the stripped text through the
full pipeline (raw "  MonDay  " is acknowledged as "MonDay"). -/
theorem C10_user_message_stored_stripped (store : Store) (fresh : String)
    (req : ChatRequest) :
    ((chat store fresh req).1.history =
      (store (pyOr req.session_id fresh)).getD [] ++
        [⟨Role.user, pyStrip req.message⟩,
         ⟨Role.bot, (chat store fresh req).1.reply⟩]) ∧
    ((chat emptyStore "s1" ⟨"   ", some "s1"⟩).1.history =
      [⟨Role.user, ""⟩, ⟨Role.bot, "Please type something and try again."⟩]) ∧
    ((chat (chat emptyStore "s2" ⟨" What are your hours? ", some "s2"⟩).2 "s2"
        ⟨"  MonDay  ", some "s2"⟩).1.reply =
      "Got it â€” you\x27re asking about MonDay. (Weâ€™ll add real hours later.)") := by
  refine ⟨?_, by decide, by decide⟩
  simp [chat]

end ChatbotBasics
